import Mathlib

/-!
Shallow embedding of `src/js/script.js` of the NASA APOD gallery viewer:
the gallery renderer (`renderGallery`), the modal controller
(`createApodModal` / `openApodModal` / `closeApodModal` and its close
triggers), the video URL resolver inlined in `openApodModal`
(lines 233-251), and the fetch-button click handler.

JavaScript strings are modelled as Lean `String`; a possibly-undefined
object field is `Option String` (`none` = the field is absent /
`undefined`).  JS truthiness of such a field is `truthy`; `a || b` on
fields/strings is `jsOr` / `jsOrS`.  `String.prototype.split(sep)` (for
the non-empty separators used by the source) is `jsSplit`, and the
source's `split(sep)[1]` - which is `undefined` when `sep` does not
occur, so that a subsequent method call would throw - is the
`Option`-valued `jsSplitAt1?`.
-/

/-- Truthiness of a possibly-undefined JS string field: `undefined` and
the empty string are falsy, every other string is truthy. -/
def truthy : Option String → Bool
  | none => false
  | some s => !s.isEmpty

/-- JS `field || default` where `field` is a possibly-undefined string
field and `default` a string. -/
def jsOr : Option String → String → String
  | none, d => d
  | some s, d => if s.isEmpty then d else s

/-- JS `a || b` on two strings. -/
def jsOrS (a b : String) : String :=
  if a.isEmpty then b else a

/-- Whether `sep` is a prefix of `l` (character lists). -/
def listIsPfx : List Char → List Char → Bool
  | [], _ => true
  | _ :: _, [] => false
  | a :: as, b :: bs => a == b && listIsPfx as bs

/-- Fuel-driven worker for `jsSplit`: scans `rest` left to right,
splitting at each leftmost non-overlapping occurrence of `sep`.
`acc` holds the characters of the current piece, reversed.  The fuel
only exists to make the recursion structural; `jsSplit` supplies enough
fuel that the `0` case is never reached. -/
def splitGo (sep : List Char) : Nat → List Char → List Char → List (List Char)
  | 0, acc, rest => [acc.reverse ++ rest]
  | fuel + 1, acc, rest =>
    match rest with
    | [] => [acc.reverse]
    | c :: cs =>
      if listIsPfx sep (c :: cs) then
        acc.reverse :: splitGo sep fuel [] (List.drop (sep.length - 1) cs)
      else
        splitGo sep fuel (c :: acc) cs

/-- JS `s.split(sep)` for a non-empty separator: the pieces of `s`
between leftmost non-overlapping occurrences of `sep`, in order.
Always returns at least one piece. -/
def jsSplit (s sep : String) : List String :=
  (splitGo sep.data (s.data.length + 1) [] s.data).map String.mk

/-- JS `s.includes(sep)` for the non-empty separators the source uses:
`sep` occurs in `s` iff splitting on it yields at least two pieces. -/
def jsIncludes (s sep : String) : Bool :=
  decide (1 < (jsSplit s sep).length)

/-- JS `s.split(sep)[1]`: `none` models `undefined` (where the source
would throw on a further method call). -/
def jsSplitAt1? (s sep : String) : Option String :=
  (jsSplit s sep).get? 1

/-- JS `s.split(sep)[0]`: always defined. -/
def jsSplitAt0 (s sep : String) : String :=
  (jsSplit s sep).headD s

/-- One APOD feed record (all fields optional, as delivered by JSON). -/
structure Record where
  title : Option String := none
  date : Option String := none
  media_type : Option String := none
  url : Option String := none
  hdurl : Option String := none
  thumbnail_url : Option String := none
  explanation : Option String := none
deriving DecidableEq

/-- Canonical watch URL built from an extracted identifier
(`openApodModal` lines 239/246). -/
def watchFmt (id : String) : String :=
  "https://www.youtube.com/watch?v=" ++ id

/-- Canonical thumbnail URL built from an extracted identifier
(`openApodModal` lines 240/243/247). -/
def thumbFmt (id : String) : String :=
  "https://img.youtube.com/vi/" ++ id ++ "/hqdefault.jpg"

/-- The body of the `try` block of `openApodModal` lines 236-248, on the
already-defaulted strings `watchUrl = item.url || ''` and
`thumbUrl = item.thumbnail_url || ''`.  A `none` result models a thrown
exception (JS `split(sep)[1]` being `undefined`); the caught branches of
the source correspond to `Option.map` over `jsSplitAt1?`. -/
def resolveVideoCore (url thumb : String) : Option (String × String) :=
  if jsIncludes url "/embed/" then
    (jsSplitAt1? url "/embed/").map fun seg =>
      let id := jsSplitAt0 seg "?"
      (watchFmt id, if thumb.isEmpty then thumbFmt id else thumb)
  else if jsIncludes url "watch?v=" then
    (jsSplitAt1? url "watch?v=").map fun seg =>
      let id := jsSplitAt0 seg "&"
      (url, if thumb.isEmpty then thumbFmt id else thumb)
  else if jsIncludes url "youtu.be/" then
    (jsSplitAt1? url "youtu.be/").map fun seg =>
      let id := jsSplitAt0 seg "?"
      (watchFmt id, if thumb.isEmpty then thumbFmt id else thumb)
  else
    some (url, thumb)

/-- Lines 233-251 of `openApodModal` with their surrounding
`try { ... } catch (e) { /- ignore, fall back -/ }`: the derived
`(watchUrl, thumbUrl)` pair, falling back to the provided values if the
core were ever to throw. -/
def resolveVideo (url thumb : String) : String × String :=
  (resolveVideoCore url thumb).getD (url, thumb)

/-- The media part of a gallery card (`renderGallery` lines 85-112):
which of the four `mediaHtml` branches was taken, with the data
interpolated into it. -/
inductive CardMedia where
  | image (src alt : String)
  | videoThumb (src alt : String)
  | videoPlaceholder (href : String)
  | unsupported (mediaType : String)
deriving DecidableEq

/-- Whether a card media is the thumbnail-plus-play-overlay variant. -/
def CardMedia.isVideoThumb : CardMedia → Bool
  | .videoThumb _ _ => true
  | _ => false

/-- One gallery card (`renderGallery` lines 73-137): its media block,
title and date lines, tab index, and the back-reference `_apodItem`. -/
structure Card where
  media : CardMedia
  title : String
  date : String
  tabIndex : Nat
  item : Record
deriving DecidableEq

/-- The `mediaHtml` computed for one item (`renderGallery` lines 77-112,
with the field defaulting of lines 78-82). -/
def cardMediaFor (item : Record) : CardMedia :=
  let title := jsOr item.title "Untitled"
  let mediaType := jsOr item.media_type "image"
  let url := jsOr item.url ""
  let thumb := jsOr item.thumbnail_url ""
  if mediaType = "image" then
    CardMedia.image url title
  else if mediaType = "video" then
    if !thumb.isEmpty then
      CardMedia.videoThumb thumb (title ++ " (video thumbnail)")
    else
      CardMedia.videoPlaceholder (jsOrS url "#")
  else
    CardMedia.unsupported mediaType

/-- The card built for one item (`renderGallery` lines 73-137). -/
def cardFor (item : Record) : Card :=
  { media := cardMediaFor item
    title := jsOr item.title "Untitled"
    date := jsOr item.date ""
    tabIndex := 0
    item := item }

/-- A JS value handed to `renderGallery`: either an array of records or
any non-array value (the source only distinguishes these two cases, via
`Array.isArray`). -/
inductive FeedValue where
  | arr (items : List Record)
  | nonArray
deriving DecidableEq

/-- The gallery container contents after a render or a fetch attempt:
one of the literal placeholders, or the list of cards. -/
inductive GalleryView where
  | noItems
  | loading
  | errorMsg
  | cards (cs : List Card)
deriving DecidableEq

/-- Number of cards shown by a gallery view (the placeholders contain
no cards). -/
def GalleryView.cardCount : GalleryView → Nat
  | .cards cs => cs.length
  | _ => 0

/-- The gallery contents produced by `renderGallery` (lines 58-139):
non-array or empty input yields the single no-items placeholder,
otherwise one card per item in order. -/
def renderGallery : FeedValue → GalleryView
  | .nonArray => GalleryView.noItems
  | .arr items =>
    if items.isEmpty then GalleryView.noItems
    else GalleryView.cards (items.map cardFor)

/-- One child node of the modal's media container
(`openApodModal` lines 218-291). -/
inductive MNode where
  | img (src alt : String)
  | text (s : String)
  | hintDiv (s : String)
  | link (href rel target label : String)
deriving DecidableEq

/-- The children appended to the cleared `.apod-modal-media` container
by `openApodModal` (lines 223-291), branch for branch. -/
def modalMedia (item : Record) : List MNode :=
  if item.media_type = some "image" ∧ truthy item.hdurl = true then
    [MNode.img (jsOr item.hdurl (jsOr item.url "")) (jsOr item.title "APOD image")]
  else if item.media_type = some "image" ∧ truthy item.url = true then
    [MNode.img (jsOr item.url "") (jsOr item.title "APOD image")]
  else if item.media_type = some "video" ∧ truthy item.url = true then
    let wt := resolveVideo (jsOr item.url "") (jsOr item.thumbnail_url "")
    (if wt.2.isEmpty then
      [MNode.text "Video (no thumbnail available)"]
    else
      [MNode.img wt.2 (jsOr item.title "Video thumbnail")])
    ++ [MNode.hintDiv "This video will open on YouTube.",
        MNode.link (jsOrS wt.1 (jsOr item.url "#")) "noopener noreferrer" "_blank"
          "Watch video on YouTube"]
  else if item.media_type = some "video" ∧ truthy item.thumbnail_url = true then
    [MNode.img (jsOr item.thumbnail_url "") (jsOr item.title "Video thumbnail")]
  else
    [MNode.text "Media not available."]

/-- A focusable page element, abstracted: its identity and whether it
still has a `focus` method (the source's
`typeof _apodModalPrevActive.focus === 'function'` check). -/
structure Elem where
  id : Nat
  focusable : Bool
deriving DecidableEq

/-- The close button of the (single) modal, as a page element. -/
def closeBtnElem : Elem := { id := 0, focusable := true }

/-- The modal-relevant page state: whether `_apodModal` has been created,
the overlay visibility (`root.style.display`), the children of the
`.apod-modal-media` container, the three text fields, the iframe `src`,
whether the Escape keydown listener is registered, the currently focused
element (`document.activeElement`), and `_apodModalPrevActive`. -/
structure ModalState where
  created : Bool
  visible : Bool
  mediaChildren : List MNode
  titleText : String
  dateText : String
  explText : String
  iframeSrc : String
  escListener : Bool
  focused : Elem
  prevActive : Option Elem
deriving DecidableEq

/-- The `while (mediaWrap.firstChild) mediaWrap.removeChild(...)` loop of
`openApodModal` lines 220-221: remove children one at a time from the
front until none remain. -/
def removeAll : List MNode → List MNode
  | [] => []
  | _ :: rest => removeAll rest

/-- `openApodModal` (lines 208-300): lazily create the modal, remember
the focused element, set the texts, clear the media container with the
removal loop and append the new media, show the overlay, focus the close
button, and register the Escape listener.  The iframe `src` starts empty
on creation and is otherwise untouched by opening. -/
def openApodModal (s : ModalState) (item : Record) : ModalState :=
  { created := true
    visible := true
    mediaChildren := removeAll s.mediaChildren ++ modalMedia item
    titleText := jsOr item.title "Untitled"
    dateText := jsOr item.date ""
    explText := jsOr item.explanation ""
    iframeSrc := if s.created then s.iframeSrc else ""
    escListener := true
    focused := closeBtnElem
    prevActive := some s.focused }

/-- `closeApodModal` (lines 306-316): no-op if the modal was never
created; otherwise hide the overlay, clear the iframe `src`, unregister
the Escape listener, and focus `_apodModalPrevActive` if it is non-null
and still has a `focus` method. -/
def closeApodModal (s : ModalState) : ModalState :=
  if s.created = false then s
  else
    { s with
      visible := false
      iframeSrc := ""
      escListener := false
      focused :=
        match s.prevActive with
        | some e => if e.focusable then e else s.focused
        | none => s.focused }

/-- The overlay click handler of `createApodModal` (lines 191-193):
closes only when the click target is the overlay itself. -/
def overlayClick (s : ModalState) (targetIsOverlay : Bool) : ModalState :=
  if targetIsOverlay then closeApodModal s else s

/-- The close-button click handler of `createApodModal` (line 194). -/
def closeBtnClick (s : ModalState) : ModalState :=
  closeApodModal s

/-- A document-level keydown: `_apodModalKeydown` (lines 302-304) runs
only while it is registered, and closes only on the Escape key. -/
def docKeydown (s : ModalState) (key : String) : ModalState :=
  if s.escListener then
    if key = "Escape" then closeApodModal s else s
  else s

/-- Outcome of `fetchApodData` as seen by the click handler: a parsed
JSON value, or a thrown error (non-ok status, network or parse
failure). -/
inductive FetchOutcome where
  | ok (v : FeedValue)
  | err
deriving DecidableEq

/-- The page state the fetch-button click handler touches. -/
structure UIState where
  btnDisabled : Bool
  btnLabel : String
  galleryView : GalleryView
deriving DecidableEq

/-- The `getImageBtn` click handler (lines 319-349): disable the button
and show the loading label and placeholder; on success render the items,
on a thrown error show the error placeholder; in `finally` re-enable the
button and restore its default label. -/
def handleGetImagesClick (s : UIState) (outcome : FetchOutcome) : UIState :=
  let s1 : UIState :=
    { s with btnDisabled := true, btnLabel := "Loading...", galleryView := GalleryView.loading }
  let s2 : UIState :=
    match outcome with
    | .ok v => { s1 with galleryView := renderGallery v }
    | .err => { s1 with galleryView := GalleryView.errorMsg }
  { s2 with btnDisabled := false, btnLabel := "Fetch Space Images" }

/-- Concrete image record with both `hdurl` and `url` (for C2). -/
def rC2 : Record := { media_type := some "image", url := some "U.jpg", hdurl := some "H.jpg" }

/-- Concrete video record with an embed-shaped url and no
`thumbnail_url` (for C3). -/
def rC3 : Record := { media_type := some "video", url := some "https://www.youtube.com/embed/abc123" }

/-- Concrete video record carrying a `thumbnail_url` (for C3). -/
def rC3t : Record := { media_type := some "video", thumbnail_url := some "th.jpg" }

/-- Concrete record with a falsy `media_type` (for C9). -/
def rC9 : Record := { url := some "u.jpg" }

/-- Concrete record with an unrecognized `media_type` (for C10). -/
def rC10 : Record := { media_type := some "gif" }

/-- Concrete pre-open page state whose focused element is focusable
(for C6). -/
def s0C6 : ModalState :=
  { created := false, visible := false, mediaChildren := [], titleText := "",
    dateText := "", explText := "", iframeSrc := "", escListener := false,
    focused := { id := 1, focusable := true }, prevActive := none }

/-- Concrete record opened in the modal (for C6). -/
def rC6 : Record := { media_type := some "image", url := some "pic.jpg" }

theorem removeAll_eq_nil (l : List MNode) : removeAll l = [] := by
  induction l with
  | nil => rfl
  | cons _ _ ih => exact ih

theorem jsSplitAt1?_isSome (s sep : String) (h : jsIncludes s sep = true) :
    (jsSplitAt1? s sep).isSome = true := by
  unfold jsIncludes at h
  have hlt : 1 < (jsSplit s sep).length := of_decide_eq_true h
  unfold jsSplitAt1?
  rw [List.get?_eq_get hlt]
  rfl

theorem jsOr_of_truthy (x : Option String) (d d' : String) (h : truthy x = true) :
    jsOr x d = jsOr x d' := by
  cases x with
  | none => simp [truthy] at h
  | some s =>
    simp only [truthy, Bool.not_eq_true'] at h
    simp [jsOr, h]

/-- C7: empty or non-sequence input to the gallery renderer produces the
single no-items placeholder and zero cards (and, being a total Lean
function, raises no error). -/
theorem c7_empty_or_non_sequence_renders_no_items :
    renderGallery FeedValue.nonArray = GalleryView.noItems ∧
    (renderGallery FeedValue.nonArray).cardCount = 0 ∧
    renderGallery (FeedValue.arr []) = GalleryView.noItems ∧
    (renderGallery (FeedValue.arr [])).cardCount = 0 :=
  ⟨rfl, rfl, rfl, rfl⟩

/-- C9: in the gallery renderer, a record whose `media_type` is missing
or falsy defaults to `"image"` and is rendered as an image card using
its `url`, not as the unsupported variant. -/
theorem c9_falsy_media_type_rendered_as_image (item : Record)
    (h : truthy item.media_type = false) :
    cardMediaFor item = CardMedia.image (jsOr item.url "") (jsOr item.title "Untitled") := by
  have hm : jsOr item.media_type "image" = "image" := by
    cases hmt : item.media_type with
    | none => rfl
    | some s =>
      rw [hmt] at h
      simp only [truthy, Bool.not_eq_false'] at h
      simp [jsOr, h]
  simp [cardMediaFor, hm]

theorem c9_falsy_media_type_rendered_as_image_witness :
    truthy rC9.media_type = false ∧
    cardMediaFor rC9 = CardMedia.image "u.jpg" "Untitled" := by
  refine ⟨rfl, ?_⟩
  rw [c9_falsy_media_type_rendered_as_image rC9 rfl]
  decide

/-- C8: after every fetch attempt the trigger button is re-enabled with
its default label restored (the `finally` block), and a failed fetch
leaves the gallery showing the error placeholder. -/
theorem c8_button_restored_and_error_placeholder (s : UIState) (outcome : FetchOutcome) :
    (handleGetImagesClick s outcome).btnDisabled = false ∧
    (handleGetImagesClick s outcome).btnLabel = "Fetch Space Images" ∧
    (handleGetImagesClick s FetchOutcome.err).galleryView = GalleryView.errorMsg :=
  ⟨rfl, rfl, rfl⟩

/-- C5: opening the modal removes every child of the media container
before appending the new record's media, so the media shown after
opening on record `a` and then on record `b` is exactly `b`'s media,
with no residue from `a` or from any earlier state. -/
theorem c5_modal_media_fully_cleared (s : ModalState) (a b : Record) :
    (openApodModal s a).mediaChildren = modalMedia a ∧
    (openApodModal (openApodModal s a) b).mediaChildren = modalMedia b := by
  constructor <;> simp [openApodModal, removeAll_eq_nil]

/-- C4: the video URL resolver is total - the guarded `split(sep)[1]`
extractions always succeed, so the `try` body never throws - and on a
url matching none of the three markers the resolver returns the
originally provided url and thumbnail unchanged. -/
theorem c4_resolver_total_with_silent_fallback (url thumb : String) :
    (resolveVideoCore url thumb).isSome = true ∧
    (jsIncludes url "/embed/" = false → jsIncludes url "watch?v=" = false →
      jsIncludes url "youtu.be/" = false →
      resolveVideo url thumb = (url, thumb)) := by
  constructor
  · by_cases h1 : jsIncludes url "/embed/" = true
    · obtain ⟨seg, hq⟩ := Option.isSome_iff_exists.mp (jsSplitAt1?_isSome url "/embed/" h1)
      unfold resolveVideoCore
      rw [if_pos h1, hq]
      rfl
    · by_cases h2 : jsIncludes url "watch?v=" = true
      · obtain ⟨seg, hq⟩ := Option.isSome_iff_exists.mp (jsSplitAt1?_isSome url "watch?v=" h2)
        unfold resolveVideoCore
        rw [if_neg h1, if_pos h2, hq]
        rfl
      · by_cases h3 : jsIncludes url "youtu.be/" = true
        · obtain ⟨seg, hq⟩ :=
            Option.isSome_iff_exists.mp (jsSplitAt1?_isSome url "youtu.be/" h3)
          unfold resolveVideoCore
          rw [if_neg h1, if_neg h2, if_pos h3, hq]
          rfl
        · unfold resolveVideoCore
          rw [if_neg h1, if_neg h2, if_neg h3]
          rfl
  · intro h1 h2 h3
    unfold resolveVideo resolveVideoCore
    rw [if_neg (by rw [h1]; exact Bool.false_ne_true),
      if_neg (by rw [h2]; exact Bool.false_ne_true),
      if_neg (by rw [h3]; exact Bool.false_ne_true)]
    rfl

theorem c4_resolver_total_with_silent_fallback_witness :
    jsIncludes "https://example.com/v.mp4" "/embed/" = false ∧
    jsIncludes "https://example.com/v.mp4" "watch?v=" = false ∧
    jsIncludes "https://example.com/v.mp4" "youtu.be/" = false ∧
    resolveVideo "https://example.com/v.mp4" "t.jpg" = ("https://example.com/v.mp4", "t.jpg") :=
  ⟨by decide, by decide, by decide,
    (c4_resolver_total_with_silent_fallback "https://example.com/v.mp4" "t.jpg").2
      (by decide) (by decide) (by decide)⟩

/-- C3 counterexample: a video record whose url is embed-shaped (so a
thumbnail is derivable - the resolver derives one) but which has no
`thumbnail_url` is classified by the gallery renderer as the
no-thumbnail placeholder variant, not as the thumbnail variant. -/
theorem c3_counterexample :
    (cardMediaFor rC3).isVideoThumb = false ∧
    cardMediaFor rC3 = CardMedia.videoPlaceholder "https://www.youtube.com/embed/abc123" ∧
    resolveVideo (jsOr rC3.url "") (jsOr rC3.thumbnail_url "") =
      ("https://www.youtube.com/watch?v=abc123",
       "https://img.youtube.com/vi/abc123/hqdefault.jpg") :=
  ⟨by decide, by decide, by decide⟩

/-- C3 amended: for a record the gallery renderer takes as a video, the
card is the thumbnail-plus-play-overlay variant exactly when the record
itself carries a truthy `thumbnail_url`; the renderer never derives a
thumbnail from the url (derivation happens only in the modal). -/
theorem c3_gallery_video_thumb_iff_thumbnail_url (item : Record)
    (h : jsOr item.media_type "image" = "video") :
    (cardMediaFor item).isVideoThumb = truthy item.thumbnail_url := by
  unfold cardMediaFor
  simp only [h]
  rw [if_neg (by decide), if_pos trivial]
  cases ht : item.thumbnail_url with
  | none => rfl
  | some t =>
    by_cases hte : t.isEmpty = true
    · have hj : jsOr (some t) "" = "" := by simp [jsOr, hte]
      rw [hj, if_neg (by decide)]
      simp [truthy, hte, CardMedia.isVideoThumb]
    · simp only [Bool.not_eq_true] at hte
      have hj : jsOr (some t) "" = t := by simp [jsOr, hte]
      rw [hj, if_pos (by simp [hte])]
      simp [truthy, hte, CardMedia.isVideoThumb]

theorem c3_gallery_video_thumb_iff_thumbnail_url_witness :
    jsOr rC3t.media_type "image" = "video" ∧
    (cardMediaFor rC3t).isVideoThumb = truthy rC3t.thumbnail_url :=
  ⟨by decide, c3_gallery_video_thumb_iff_thumbnail_url rC3t (by decide)⟩

/-- C2 counterexample: an image record with both `hdurl` and `url`
present is shown in the gallery card with `url`, not `hdurl` - only the
modal prefers `hdurl`. -/
theorem c2_counterexample :
    truthy rC2.hdurl = true ∧
    cardMediaFor rC2 = CardMedia.image "U.jpg" "Untitled" ∧
    ("U.jpg" : String) ≠ "H.jpg" ∧
    modalMedia rC2 = [MNode.img "H.jpg" "APOD image"] :=
  ⟨by decide, by decide, by decide, by decide⟩

/-- C2 amended: for an image record the modal shows `hdurl` when it is
truthy and otherwise `url`, while the gallery card always shows `url`
(empty when absent), regardless of `hdurl`. -/
theorem c2_image_display_url (item : Record) (himg : item.media_type = some "image") :
    (truthy item.hdurl = true →
      modalMedia item = [MNode.img (jsOr item.hdurl "") (jsOr item.title "APOD image")]) ∧
    (truthy item.hdurl = false → truthy item.url = true →
      modalMedia item = [MNode.img (jsOr item.url "") (jsOr item.title "APOD image")]) ∧
    cardMediaFor item = CardMedia.image (jsOr item.url "") (jsOr item.title "Untitled") := by
  refine ⟨?_, ?_, ?_⟩
  · intro hh
    unfold modalMedia
    rw [if_pos ⟨himg, hh⟩, jsOr_of_truthy item.hdurl (jsOr item.url "") "" hh]
  · intro hh hu
    unfold modalMedia
    rw [if_neg (by simp [hh]), if_pos ⟨himg, hu⟩]
  · have hm : jsOr item.media_type "image" = "image" := by
      rw [himg]; rfl
    simp [cardMediaFor, hm]

theorem c2_image_display_url_witness :
    rC2.media_type = some "image" ∧
    truthy rC2.hdurl = true ∧
    modalMedia rC2 = [MNode.img (jsOr rC2.hdurl "") (jsOr rC2.title "APOD image")] ∧
    cardMediaFor rC2 = CardMedia.image (jsOr rC2.url "") (jsOr rC2.title "Untitled") :=
  ⟨rfl, rfl, (c2_image_display_url rC2 rfl).1 rfl, (c2_image_display_url rC2 rfl).2.2⟩

/-- C6: from a just-opened modal, an overlay-click landing on the
overlay itself, the close button, and the Escape key all produce exactly
the state of `closeApodModal`; that closed state has the surface hidden,
the Escape listener unregistered and the iframe source cleared, and it
restores focus to the element that was focused at open time provided
that element is still focusable. -/
theorem c6_close_triggers_converge (s0 : ModalState) (item : Record) :
    overlayClick (openApodModal s0 item) true = closeApodModal (openApodModal s0 item) ∧
    closeBtnClick (openApodModal s0 item) = closeApodModal (openApodModal s0 item) ∧
    docKeydown (openApodModal s0 item) "Escape" = closeApodModal (openApodModal s0 item) ∧
    (closeApodModal (openApodModal s0 item)).visible = false ∧
    (closeApodModal (openApodModal s0 item)).escListener = false ∧
    (closeApodModal (openApodModal s0 item)).iframeSrc = "" ∧
    (s0.focused.focusable = true →
      (closeApodModal (openApodModal s0 item)).focused = s0.focused) := by
  have hop : (openApodModal s0 item).created = true := rfl
  refine ⟨rfl, rfl, rfl, ?_, ?_, ?_, ?_⟩
  · simp [closeApodModal, openApodModal]
  · simp [closeApodModal, openApodModal]
  · simp [closeApodModal, openApodModal]
  · intro hf
    simp [closeApodModal, openApodModal, hf]

theorem c6_close_triggers_converge_witness :
    s0C6.focused.focusable = true ∧
    (closeApodModal (openApodModal s0C6 rC6)).focused = s0C6.focused :=
  ⟨rfl, (c6_close_triggers_converge s0C6 rC6).2.2.2.2.2.2 rfl⟩

/-- C1 counterexample: for a watch-link-shaped url the resolver extracts
the identifier `abc` (visible in the derived thumbnail) but leaves the
watch URL as the original url, which differs from the canonical
`https://www.youtube.com/watch?v=abc` the claim prescribes. -/
theorem c1_counterexample :
    jsIncludes "https://www.youtube.com/watch?v=abc&t=5s" "watch?v=" = true ∧
    resolveVideo "https://www.youtube.com/watch?v=abc&t=5s" "" =
      ("https://www.youtube.com/watch?v=abc&t=5s",
       "https://img.youtube.com/vi/abc/hqdefault.jpg") ∧
    ("https://www.youtube.com/watch?v=abc&t=5s" : String) ≠ watchFmt "abc" :=
  ⟨by decide, by decide, by decide⟩

/-- C1 amended: an already-present (non-empty) thumbnail is never
replaced by a derived one; for an embed-shaped url the watch URL is the
canonical one built from the extracted identifier and the thumbnail,
when absent, the canonical one; for a watch-link-shaped url only the
thumbnail is derived while the watch URL stays the original url; for a
short-link-shaped url both are the canonical forms.  Both outputs are
functions of the extracted identifier and the inputs alone. -/
theorem c1_video_url_derivation (url thumb : String) :
    (thumb.isEmpty = false → (resolveVideo url thumb).2 = thumb) ∧
    (jsIncludes url "/embed/" = true →
      ∃ seg, jsSplitAt1? url "/embed/" = some seg ∧
        resolveVideo url thumb =
          (watchFmt (jsSplitAt0 seg "?"),
           if thumb.isEmpty then thumbFmt (jsSplitAt0 seg "?") else thumb)) ∧
    (jsIncludes url "/embed/" = false → jsIncludes url "watch?v=" = true →
      ∃ seg, jsSplitAt1? url "watch?v=" = some seg ∧
        resolveVideo url thumb =
          (url, if thumb.isEmpty then thumbFmt (jsSplitAt0 seg "&") else thumb)) ∧
    (jsIncludes url "/embed/" = false → jsIncludes url "watch?v=" = false →
      jsIncludes url "youtu.be/" = true →
      ∃ seg, jsSplitAt1? url "youtu.be/" = some seg ∧
        resolveVideo url thumb =
          (watchFmt (jsSplitAt0 seg "?"),
           if thumb.isEmpty then thumbFmt (jsSplitAt0 seg "?") else thumb)) := by
  refine ⟨?_, ?_, ?_, ?_⟩
  · intro hne
    by_cases h1 : jsIncludes url "/embed/" = true
    · obtain ⟨seg, hq⟩ := Option.isSome_iff_exists.mp (jsSplitAt1?_isSome url "/embed/" h1)
      unfold resolveVideo resolveVideoCore
      rw [if_pos h1, hq]
      simp [hne]
    · by_cases h2 : jsIncludes url "watch?v=" = true
      · obtain ⟨seg, hq⟩ := Option.isSome_iff_exists.mp (jsSplitAt1?_isSome url "watch?v=" h2)
        unfold resolveVideo resolveVideoCore
        rw [if_neg h1, if_pos h2, hq]
        simp [hne]
      · by_cases h3 : jsIncludes url "youtu.be/" = true
        · obtain ⟨seg, hq⟩ :=
            Option.isSome_iff_exists.mp (jsSplitAt1?_isSome url "youtu.be/" h3)
          unfold resolveVideo resolveVideoCore
          rw [if_neg h1, if_neg h2, if_pos h3, hq]
          simp [hne]
        · unfold resolveVideo resolveVideoCore
          rw [if_neg h1, if_neg h2, if_neg h3]
          rfl
  · intro h1
    obtain ⟨seg, hq⟩ := Option.isSome_iff_exists.mp (jsSplitAt1?_isSome url "/embed/" h1)
    refine ⟨seg, hq, ?_⟩
    unfold resolveVideo resolveVideoCore
    rw [if_pos h1, hq]
    rfl
  · intro h1 h2
    obtain ⟨seg, hq⟩ := Option.isSome_iff_exists.mp (jsSplitAt1?_isSome url "watch?v=" h2)
    refine ⟨seg, hq, ?_⟩
    unfold resolveVideo resolveVideoCore
    rw [if_neg (by rw [h1]; exact Bool.false_ne_true), if_pos h2, hq]
    rfl
  · intro h1 h2 h3
    obtain ⟨seg, hq⟩ := Option.isSome_iff_exists.mp (jsSplitAt1?_isSome url "youtu.be/" h3)
    refine ⟨seg, hq, ?_⟩
    unfold resolveVideo resolveVideoCore
    rw [if_neg (by rw [h1]; exact Bool.false_ne_true),
      if_neg (by rw [h2]; exact Bool.false_ne_true), if_pos h3, hq]
    rfl

theorem c1_video_url_derivation_witness :
    ("pre.jpg" : String).isEmpty = false ∧
    (resolveVideo "https://www.youtube.com/embed/xyz?rel=0" "pre.jpg").2 = "pre.jpg" ∧
    jsIncludes "https://www.youtube.com/embed/xyz?rel=0" "/embed/" = true ∧
    resolveVideo "https://www.youtube.com/embed/xyz?rel=0" "" =
      ("https://www.youtube.com/watch?v=xyz", "https://img.youtube.com/vi/xyz/hqdefault.jpg") :=
  ⟨by decide,
   (c1_video_url_derivation "https://www.youtube.com/embed/xyz?rel=0" "pre.jpg").1 (by decide),
   by decide, by decide⟩

theorem str_data_append (a b : String) : (a ++ b).data = a.data ++ b.data := by
  cases a
  cases b
  rfl

theorem media_not_available_ne_unsupported (s : String) :
    "Media not available." ≠ "Unsupported media type: " ++ s := by
  intro h
  have hh : (some 'M' : Option Char) = some 'U' := by
    have hd := congrArg String.data h
    rw [str_data_append] at hd
    calc (some 'M' : Option Char) = "Media not available.".data.head? := rfl
      _ = ("Unsupported media type: ".data ++ s.data).head? := by rw [hd]
      _ = some 'U' := rfl
  exact absurd hh (by decide)

theorem video_no_thumb_ne_unsupported (s : String) :
    "Video (no thumbnail available)" ≠ "Unsupported media type: " ++ s := by
  intro h
  have hh : (some 'V' : Option Char) = some 'U' := by
    have hd := congrArg String.data h
    rw [str_data_append] at hd
    calc (some 'V' : Option Char) = "Video (no thumbnail available)".data.head? := rfl
      _ = ("Unsupported media type: ".data ++ s.data).head? := by rw [hd]
      _ = some 'U' := rfl
  exact absurd hh (by decide)

/-- C10: the modal shows the text `Media not available.` for an unknown
`media_type`, for an image record lacking both `hdurl` and `url`, and
for a video record lacking both `url` and `thumbnail_url`; no modal
media node ever carries the `Unsupported media type:` message, which the
gallery card shows for records whose (defaulted) media type is neither
image nor video. -/
theorem c10_modal_fallback_message (item : Record) :
    ((item.media_type ≠ some "image" ∧ item.media_type ≠ some "video") →
      modalMedia item = [MNode.text "Media not available."]) ∧
    (item.media_type = some "image" → truthy item.hdurl = false → truthy item.url = false →
      modalMedia item = [MNode.text "Media not available."]) ∧
    (item.media_type = some "video" → truthy item.url = false →
      truthy item.thumbnail_url = false →
      modalMedia item = [MNode.text "Media not available."]) ∧
    (∀ s, MNode.text ("Unsupported media type: " ++ s) ∉ modalMedia item) ∧
    (jsOr item.media_type "image" ≠ "image" → jsOr item.media_type "image" ≠ "video" →
      cardMediaFor item = CardMedia.unsupported (jsOr item.media_type "image")) := by
  refine ⟨?_, ?_, ?_, ?_, ?_⟩
  · intro h
    unfold modalMedia
    rw [if_neg (fun hc => h.1 hc.1), if_neg (fun hc => h.1 hc.1),
      if_neg (fun hc => h.2 hc.1), if_neg (fun hc => h.2 hc.1)]
  · intro himg hh hu
    unfold modalMedia
    rw [if_neg (by rintro ⟨-, hc⟩; rw [hh] at hc; exact Bool.false_ne_true hc),
      if_neg (by rintro ⟨-, hc⟩; rw [hu] at hc; exact Bool.false_ne_true hc),
      if_neg (by rintro ⟨hc, -⟩; rw [himg] at hc; exact absurd hc (by decide)),
      if_neg (by rintro ⟨hc, -⟩; rw [himg] at hc; exact absurd hc (by decide))]
  · intro hvid hu ht
    unfold modalMedia
    rw [if_neg (by rintro ⟨hc, -⟩; rw [hvid] at hc; exact absurd hc (by decide)),
      if_neg (by rintro ⟨hc, -⟩; rw [hvid] at hc; exact absurd hc (by decide)),
      if_neg (by rintro ⟨-, hc⟩; rw [hu] at hc; exact Bool.false_ne_true hc),
      if_neg (by rintro ⟨-, hc⟩; rw [ht] at hc; exact Bool.false_ne_true hc)]
  · intro s
    unfold modalMedia
    split_ifs with h1 h2 h3 h4
    · simp
    · simp
    · by_cases he :
        (resolveVideo (jsOr item.url "") (jsOr item.thumbnail_url "")).2.isEmpty = true
      · simp [he]
        exact fun hc => video_no_thumb_ne_unsupported s hc.symm
      · simp [he]
    · simp
    · simp
      exact fun hc => media_not_available_ne_unsupported s hc.symm
  · intro hI hV
    unfold cardMediaFor
    rw [if_neg hI, if_neg hV]

theorem c10_modal_fallback_message_witness :
    (rC10.media_type ≠ some "image" ∧ rC10.media_type ≠ some "video") ∧
    modalMedia rC10 = [MNode.text "Media not available."] ∧
    cardMediaFor rC10 = CardMedia.unsupported "gif" := by
  have h := c10_modal_fallback_message rC10
  refine ⟨by decide, h.1 (by decide), ?_⟩
  have h5 := h.2.2.2.2 (by decide) (by decide)
  rw [h5]
  decide
